import Mathlib

/-!
Verification of the fMRIPrep workflow-construction code
(`fmriprep/config.py` and `fmriprep/workflows/base.py`).

The Python code under review is declarative graph-construction glue: it
collects per-subject input files, validates their presence, instantiates
externally defined anatomical and functional preprocessing sub-pipelines,
and wires their named ports.  The embedding below translates that logic
into Lean: pure helpers become Lean functions, the fallible builders
return `Except`, and results of external collaborators (the BIDS data
grabber `collect_data` and the node set produced by the external
`init_anat_preproc_wf` factory) are passed in as explicit arguments.
Nodes are modelled by their (dotted) name together with the one interface
attribute this code manipulates (`out_path_base`); engine configuration
propagation (`node.config`) is not modelled because no statement below
concerns it.
-/

namespace FMRIPrep

/-- A Python runtime value, as far as the helper `_pop` needs to
distinguish shapes (`isinstance(x, (list, tuple))`). -/
inductive PyVal where
  | pyInt (n : Int)
  | pyStr (s : String)
  | pyList (xs : List PyVal)
  | pyTuple (xs : List PyVal)
  | pyNone

/-- `x.isListOrTuple` models Python's `isinstance(x, (list, tuple))`. -/
def PyVal.isListOrTuple : PyVal → Bool
  | .pyList _ => true
  | .pyTuple _ => true
  | _ => false

/-- Python `s.startswith(pre)`. -/
def pyStartsWith (s pre : String) : Bool :=
  pre.data.isPrefixOf s.data

/-- Helper for `localName`: keeps the characters seen since the last `'.'`. -/
def localNameAux : List Char → List Char → List Char
  | [], acc => acc.reverse
  | c :: cs, acc => if c = '.' then localNameAux cs [] else localNameAux cs (c :: acc)

/-- Python `node.split('.')[-1]`: the last dot-separated component of a
(hierarchical) node name. -/
def localName (s : String) : String :=
  ⟨localNameAux s.data []⟩

/-- Python `run_uuid.replace('-', '_')` (single-character pattern, so a
character-wise map). -/
def pyReplaceDash (s : String) : String :=
  ⟨s.data.map (fun c => if c = '-' then '_' else c)⟩

/-- `needle` occurs as a contiguous substring of `hay`. -/
def strContains (needle hay : String) : Prop :=
  needle.data <:+: hay.data

/- ------------------------------------------------------------------
   fmriprep/config.py
   ------------------------------------------------------------------ -/

/-- `DEFAULT_MEMORY_MIN_GB = 0.01` (a Python float; modelled exactly as a
rational since this code only passes it through). -/
def DEFAULT_MEMORY_MIN_GB : Rat := 1 / 100

/-- `NONSTANDARD_REFERENCES = ['anat', 'T1w', 'run', 'func', 'sbref', 'fsnative']` -/
def NONSTANDARD_REFERENCES : List String :=
  ["anat", "T1w", "run", "func", "sbref", "fsnative"]

/- ------------------------------------------------------------------
   fmriprep/workflows/base.py : helpers
   ------------------------------------------------------------------ -/

/-- `_pop` from `workflows/base.py`:

    def _pop(inlist):
        if isinstance(inlist, (list, tuple)):
            return inlist[0]
        return inlist

`inlist[0]` raises `IndexError` on an empty list or tuple; the raise is
modelled as `none`. -/
def _pop : PyVal → Option PyVal
  | .pyList xs => xs.head?
  | .pyTuple xs => xs.head?
  | v => some v

/-- `_prefix` from `workflows/base.py`:

    def _prefix(subid):
        if subid.startswith('sub-'):
            return subid
        return '-'.join(('sub', subid))

`'-'.join(('sub', subid))` is the string `"sub-" ++ subid`. -/
def _prefix (subid : String) : String :=
  if pyStartsWith subid "sub-" then subid else "sub-" ++ subid

/- ------------------------------------------------------------------
   Data model: subject data, parameters, nodes, connections
   ------------------------------------------------------------------ -/

/-- The modifier dictionary attached to each requested output space
(e.g. `{'resolution': 2}` or `{'density': '10k'}`). -/
abbrev Modifiers := List (String × PyVal)

/-- The ordered `output_spaces` mapping (an `OrderedDict` in the source:
keys in insertion order). -/
abbrev Spaces := List (String × Modifiers)

/-- The per-subject file lists returned by the external `collect_data`
collaborator (the modalities this code reads). -/
structure SubjectData where
  t1w : List String
  t2w : List String
  bold : List String
  roi : List String
  flair : List String

/-- The made-up `subject_data` dict substituted when the workflow name is
one of the two documentation names (lines 461-466).  The source dict
only lists the `t1w` and `bold` keys; the remaining modalities are
absent/empty. -/
def madeUpSubjectData : SubjectData :=
  { t1w := ["/completely/made/up/path/sub-01_T1w.nii.gz"],
    t2w := [],
    bold := ["/completely/made/up/path/sub-01_task-nback_bold.nii.gz"],
    roi := [],
    flair := [] }

/-- The `subject_data` variable of `init_single_subject_wf` (lines
461-468): the made-up dataset for the two documentation names, otherwise
the result of the external `collect_data` call (passed in as
`collected`). -/
def effectiveSubjectData (name : String) (collected : SubjectData) : SubjectData :=
  if name = "single_subject_wf" ∨ name = "single_subject_fmripreptest_wf" then
    madeUpSubjectData
  else
    collected

/-- The BIDS dataset layout object; this code only reads `layout.root`. -/
structure Layout where
  root : String

/-- The parameters of `init_single_subject_wf`, in source order.  The two
regressor thresholds are Python floats that this code only passes
through; they are modelled as rationals. -/
structure SubjParams where
  anat_only : Bool
  aroma_melodic_dim : Int
  bold2t1w_dof : Nat
  cifti_output : Bool
  debug : Bool
  dummy_scans : Option Nat
  echo_idx : Option Nat
  err_on_aroma_warn : Bool
  fmap_bspline : Bool
  fmap_demean : Bool
  force_syn : Bool
  freesurfer : Bool
  hires : Bool
  ignore : List String
  layout : Layout
  longitudinal : Bool
  low_mem : Bool
  medial_surface_nan : Bool
  name : String
  omp_nthreads : Nat
  output_dir : String
  output_spaces : Spaces
  reportlets_dir : String
  regressors_all_comps : Bool
  regressors_dvars_th : Rat
  regressors_fd_th : Rat
  skull_strip_fixed_seed : Bool
  skull_strip_template : String × Modifiers
  subject_id : String
  t2s_coreg : Bool
  task_id : String
  use_aroma : Bool
  use_bbr : Option Bool
  use_syn : Bool

/-- A workflow node, modelled by its (possibly dotted) name inside the
per-subject workflow and the one interface attribute this code writes:
`out_path_base` of derivatives sinks. -/
structure WNode where
  name : String
  outPathBase : Option String
deriving DecidableEq

/-- The nodes `init_single_subject_wf` creates directly (lines 517-543):
`inputnode`, `bidssrc`, `bids_info`, `summary`, `about`,
`ds_report_summary`, `ds_report_about`.  Their `out_path_base` before the
relabelling pass comes from the external `DerivativesDataSink` class and
is not set by this code, hence `none`. -/
def localNodes : List WNode :=
  [{ name := "inputnode", outPathBase := none },
   { name := "bidssrc", outPathBase := none },
   { name := "bids_info", outPathBase := none },
   { name := "summary", outPathBase := none },
   { name := "about", outPathBase := none },
   { name := "ds_report_summary", outPathBase := none },
   { name := "ds_report_about", outPathBase := none }]

/-- The node list of the per-subject workflow as seen by
`workflow.list_node_names()` right before the relabelling pass: the
directly created nodes plus the nodes of the external anatomical
sub-pipeline, whose names are nested under `anat_preproc_wf.`. -/
def preRelabelNodes (anatNodes : List WNode) : List WNode :=
  localNodes ++ anatNodes.map (fun n => { n with name := "anat_preproc_wf." ++ n.name })

/-- One step of the relabelling pass (lines 582-584): if the local name of
the node starts with `ds_`, overwrite `out_path_base` with `'fmriprep'`. -/
def relabelDs (n : WNode) : WNode :=
  if pyStartsWith (localName n.name) "ds_" then
    { n with outPathBase := some "fmriprep" }
  else
    n

/-- The parameters handed to the external `init_anat_preproc_wf` factory
(lines 546-560). -/
structure AnatWfParams where
  bids_root : String
  debug : Bool
  freesurfer : Bool
  hires : Bool
  longitudinal : Bool
  name : String
  num_t1w : Nat
  omp_nthreads : Nat
  output_dir : String
  output_spaces : Spaces
  reportlets_dir : String
  skull_strip_fixed_seed : Bool
  skull_strip_template : String × Modifiers

/-- The `std_spaces` ordered dict (lines 513-515): the entries of
`output_spaces` whose key is not in `NONSTANDARD_REFERENCES`, in the
original order. -/
def std_spaces (output_spaces : Spaces) : Spaces :=
  output_spaces.filter (fun kv => !(NONSTANDARD_REFERENCES.contains kv.1))

/-- The anatomical sub-pipeline parameterization in
`init_single_subject_wf` (lines 546-560). -/
def anatParamsOf (p : SubjParams) (sd : SubjectData) : AnatWfParams :=
  { bids_root := p.layout.root,
    debug := p.debug,
    freesurfer := p.freesurfer,
    hires := p.hires,
    longitudinal := p.longitudinal,
    name := "anat_preproc_wf",
    num_t1w := sd.t1w.length,
    omp_nthreads := p.omp_nthreads,
    output_dir := p.output_dir,
    output_spaces := std_spaces p.output_spaces,
    reportlets_dir := p.reportlets_dir,
    skull_strip_fixed_seed := p.skull_strip_fixed_seed,
    skull_strip_template := p.skull_strip_template }

/-- The transform optionally applied to a source port's value before it
reaches the destination port, as written in the connection lists. -/
inductive PortXform where
  | ident
  | popFirst
  | subPrefixed
  | fixT1wName
deriving DecidableEq

/-- An edge of the workflow graph: source node and port, optional port
transform, destination node and port. -/
structure Conn where
  src : String
  srcPort : String
  xform : PortXform
  dst : String
  dstPort : String
deriving DecidableEq

/-- The fixed connection list of the anatomical stage (lines 562-579). -/
def subjectConns : List Conn :=
  [{ src := "inputnode", srcPort := "subjects_dir", xform := .ident,
     dst := "anat_preproc_wf", dstPort := "inputnode.subjects_dir" },
   { src := "bidssrc", srcPort := "t1w", xform := .fixT1wName,
     dst := "bids_info", dstPort := "in_file" },
   { src := "inputnode", srcPort := "subjects_dir", xform := .ident,
     dst := "summary", dstPort := "subjects_dir" },
   { src := "bidssrc", srcPort := "t1w", xform := .ident,
     dst := "summary", dstPort := "t1w" },
   { src := "bidssrc", srcPort := "t2w", xform := .ident,
     dst := "summary", dstPort := "t2w" },
   { src := "bidssrc", srcPort := "bold", xform := .ident,
     dst := "summary", dstPort := "bold" },
   { src := "bids_info", srcPort := "subject", xform := .ident,
     dst := "summary", dstPort := "subject_id" },
   { src := "bids_info", srcPort := "subject", xform := .subPrefixed,
     dst := "anat_preproc_wf", dstPort := "inputnode.subject_id" },
   { src := "bidssrc", srcPort := "t1w", xform := .ident,
     dst := "anat_preproc_wf", dstPort := "inputnode.t1w" },
   { src := "bidssrc", srcPort := "t2w", xform := .ident,
     dst := "anat_preproc_wf", dstPort := "inputnode.t2w" },
   { src := "bidssrc", srcPort := "roi", xform := .ident,
     dst := "anat_preproc_wf", dstPort := "inputnode.roi" },
   { src := "bidssrc", srcPort := "flair", xform := .ident,
     dst := "anat_preproc_wf", dstPort := "inputnode.flair" },
   { src := "bidssrc", srcPort := "t1w", xform := .fixT1wName,
     dst := "ds_report_summary", dstPort := "source_file" },
   { src := "summary", srcPort := "out_report", xform := .ident,
     dst := "ds_report_summary", dstPort := "in_file" },
   { src := "bidssrc", srcPort := "t1w", xform := .fixT1wName,
     dst := "ds_report_about", dstPort := "source_file" },
   { src := "about", srcPort := "out_report", xform := .ident,
     dst := "ds_report_about", dstPort := "in_file" }]

/-- The parameters handed to the external `init_func_preproc_wf` factory
for one BOLD run (lines 590-618). -/
structure FuncWfParams where
  aroma_melodic_dim : Int
  bold2t1w_dof : Nat
  bold_file : String
  cifti_output : Bool
  debug : Bool
  dummy_scans : Option Nat
  err_on_aroma_warn : Bool
  fmap_bspline : Bool
  fmap_demean : Bool
  force_syn : Bool
  freesurfer : Bool
  ignore : List String
  layout : Layout
  low_mem : Bool
  medial_surface_nan : Bool
  num_bold : Nat
  omp_nthreads : Nat
  output_dir : String
  output_spaces : Spaces
  reportlets_dir : String
  regressors_all_comps : Bool
  regressors_fd_th : Rat
  regressors_dvars_th : Rat
  t2s_coreg : Bool
  use_aroma : Bool
  use_bbr : Option Bool
  use_syn : Bool

/-- A port connection from the anatomical sub-pipeline's output node into
one functional sub-pipeline's input node. -/
structure FuncConn where
  srcPort : String
  xform : PortXform
  dstPort : String
deriving DecidableEq

/-- The fixed anatomical-outputs-to-functional-inputs connection list
applied to every functional sub-pipeline (lines 620-642).  The
preprocessed-T1 output goes through `_pop`; every other port is passed
unchanged. -/
def anatToFuncConns : List FuncConn :=
  [{ srcPort := "outputnode.t1_preproc", xform := .popFirst, dstPort := "inputnode.t1_preproc" },
   { srcPort := "outputnode.t1_brain", xform := .ident, dstPort := "inputnode.t1_brain" },
   { srcPort := "outputnode.t1_mask", xform := .ident, dstPort := "inputnode.t1_mask" },
   { srcPort := "outputnode.t1_seg", xform := .ident, dstPort := "inputnode.t1_seg" },
   { srcPort := "outputnode.t1_aseg", xform := .ident, dstPort := "inputnode.t1_aseg" },
   { srcPort := "outputnode.t1_aparc", xform := .ident, dstPort := "inputnode.t1_aparc" },
   { srcPort := "outputnode.t1_tpms", xform := .ident, dstPort := "inputnode.t1_tpms" },
   { srcPort := "outputnode.template", xform := .ident, dstPort := "inputnode.template" },
   { srcPort := "outputnode.forward_transform", xform := .ident, dstPort := "inputnode.anat2std_xfm" },
   { srcPort := "outputnode.reverse_transform", xform := .ident, dstPort := "inputnode.std2anat_xfm" },
   { srcPort := "outputnode.joint_template", xform := .ident, dstPort := "inputnode.joint_template" },
   { srcPort := "outputnode.joint_forward_transform", xform := .ident,
     dstPort := "inputnode.joint_anat2std_xfm" },
   { srcPort := "outputnode.joint_reverse_transform", xform := .ident,
     dstPort := "inputnode.joint_std2anat_xfm" },
   { srcPort := "outputnode.subjects_dir", xform := .ident, dstPort := "inputnode.subjects_dir" },
   { srcPort := "outputnode.subject_id", xform := .ident, dstPort := "inputnode.subject_id" },
   { srcPort := "outputnode.t1_2_fsnative_forward_transform", xform := .ident,
     dstPort := "inputnode.t1_2_fsnative_forward_transform" },
   { srcPort := "outputnode.t1_2_fsnative_reverse_transform", xform := .ident,
     dstPort := "inputnode.t1_2_fsnative_reverse_transform" }]

/-- The one connection of lines 620-642 that routes through `_pop`: the
preprocessed-T1 output, taking only the first element if multiple were
produced. -/
def popConn : FuncConn :=
  { srcPort := "outputnode.t1_preproc", xform := PortXform.popFirst,
    dstPort := "inputnode.t1_preproc" }

/-- One functional preprocessing sub-pipeline instance: its factory
parameters and the connections it receives from the anatomical stage. -/
structure FuncWf where
  params : FuncWfParams
  conns : List FuncConn

/-- The functional sub-pipeline instantiated for one `bold_file`
(lines 590-618): the full functional option set, the file itself, and
`num_bold = len(subject_data['bold'])`.  Note the functional stage
receives the full `output_spaces`, not the standard subset. -/
def buildFuncWf (p : SubjParams) (sd : SubjectData) (bold_file : String) : FuncWf :=
  { params :=
      { aroma_melodic_dim := p.aroma_melodic_dim,
        bold2t1w_dof := p.bold2t1w_dof,
        bold_file := bold_file,
        cifti_output := p.cifti_output,
        debug := p.debug,
        dummy_scans := p.dummy_scans,
        err_on_aroma_warn := p.err_on_aroma_warn,
        fmap_bspline := p.fmap_bspline,
        fmap_demean := p.fmap_demean,
        force_syn := p.force_syn,
        freesurfer := p.freesurfer,
        ignore := p.ignore,
        layout := p.layout,
        low_mem := p.low_mem,
        medial_surface_nan := p.medial_surface_nan,
        num_bold := sd.bold.length,
        omp_nthreads := p.omp_nthreads,
        output_dir := p.output_dir,
        output_spaces := p.output_spaces,
        reportlets_dir := p.reportlets_dir,
        regressors_all_comps := p.regressors_all_comps,
        regressors_fd_th := p.regressors_fd_th,
        regressors_dvars_th := p.regressors_dvars_th,
        t2s_coreg := p.t2s_coreg,
        use_aroma := p.use_aroma,
        use_bbr := p.use_bbr,
        use_syn := p.use_syn },
    conns := anatToFuncConns }

/-- The two exceptions `init_single_subject_wf` can raise.  The source
raises generic `Exception`s; the payload here records which raise fired
and its format arguments, and `InitError.message` renders the exact
message string. -/
inductive InitError where
  | noBold (subject_id task_id : String)
  | noT1w (subject_id : String)

/-- The exception message strings of lines 472-474 and 477-478.  For the
BOLD error, a falsy (empty) `task_id` is displayed as `<all>`. -/
def InitError.message : InitError → String
  | .noBold sid tid =>
      "No BOLD images found for participant " ++ sid ++
        (" and task " ++ (if tid = "" then "<all>" else tid) ++
          ". All workflows require BOLD images.")
  | .noT1w sid =>
      "No T1w images found for participant " ++ sid ++
        ". All workflows require T1w images."

/-- The per-subject workflow graph as constructed by
`init_single_subject_wf`: its name, the node list after the relabelling
pass, the anatomical sub-pipeline parameterization, the anatomical-stage
connection list, and one `FuncWf` per BOLD run (empty in
anatomical-only mode). -/
structure SingleSubjectWf where
  name : String
  nodes : List WNode
  anatParams : AnatWfParams
  conns : List Conn
  funcWfs : List FuncWf

/-- The per-subject workflow right after the relabelling pass and before
the functional loop (lines 480-584): nodes are the directly created ones
plus the anatomical sub-pipeline's, each relabelled by the `ds_` pass;
no functional sub-pipelines yet. -/
def buildSubjectWorkflow (p : SubjParams) (sd : SubjectData) (anatNodes : List WNode) :
    SingleSubjectWf :=
  { name := p.name,
    nodes := (preRelabelNodes anatNodes).map relabelDs,
    anatParams := anatParamsOf p sd,
    conns := subjectConns,
    funcWfs := [] }

/-- The functional loop (lines 589-642): one functional sub-pipeline per
discovered BOLD file, in order. -/
def addFuncWfs (p : SubjParams) (sd : SubjectData) (w : SingleSubjectWf) : SingleSubjectWf :=
  { w with funcWfs := sd.bold.map (fun bold_file => buildFuncWf p sd bold_file) }

/-- `init_single_subject_wf` (lines 276-644).  `collected` stands for the
result of the external `collect_data(layout, subject_id, task_id,
echo_idx)[0]` call (only consulted when the workflow name is not one of
the two documentation names); `anatNodes` stands for the node set of the
externally constructed anatomical sub-pipeline.  The two `raise`
statements become `Except.error`. -/
def init_single_subject_wf (p : SubjParams) (collected : SubjectData)
    (anatNodes : List WNode) : Except InitError SingleSubjectWf :=
  if p.anat_only = false ∧ (effectiveSubjectData p.name collected).bold = [] then
    .error (.noBold p.subject_id p.task_id)
  else if (effectiveSubjectData p.name collected).t1w = [] then
    .error (.noT1w p.subject_id)
  else if p.anat_only = true then
    .ok (buildSubjectWorkflow p (effectiveSubjectData p.name collected) anatNodes)
  else
    .ok (addFuncWfs p (effectiveSubjectData p.name collected)
      (buildSubjectWorkflow p (effectiveSubjectData p.name collected) anatNodes))

/- ------------------------------------------------------------------
   fmriprep/workflows/base.py : init_fmriprep_wf
   ------------------------------------------------------------------ -/

/-- The shared FreeSurfer-directory preparation node (`BIDSFreeSurferDir`,
lines 214-221), modelled by the parameters this code sets. -/
structure FsdirNode where
  name : String
  derivatives : String
  spaces : List String

/-- The `spaces` parameter of the FreeSurfer-directory node (lines
219-220): the requested output-space keys starting with `fsaverage`,
followed by `'fsnative'` repeated `('fsnative' in output_spaces)` times,
i.e. once when requested and zero times otherwise. -/
def fsdirSpaces (output_spaces : Spaces) : List String :=
  (output_spaces.map Prod.fst).filter (fun s => pyStartsWith s "fsaverage") ++
    (if (output_spaces.map Prod.fst).contains "fsnative" then ["fsnative"] else [])

/-- One per-subject entry of the top-level workflow: the per-subject
sub-pipeline plus the crash-log directory override (lines 262-264). -/
structure SubjEntry where
  wf : SingleSubjectWf
  crashdump_dir : String

/-- The top-level `fmriprep_wf` graph: the optional shared
FreeSurfer-directory node, the per-subject sub-pipelines, and the
top-level connections from that node into each sub-pipeline. -/
structure FmriprepWf where
  name : String
  base_dir : String
  fsdir : Option FsdirNode
  subjects : List SubjEntry
  conns : List Conn

/-- The parameters of `init_fmriprep_wf`, in source order. -/
structure TopParams where
  anat_only : Bool
  aroma_melodic_dim : Int
  bold2t1w_dof : Nat
  cifti_output : Bool
  debug : Bool
  dummy_scans : Option Nat
  echo_idx : Option Nat
  err_on_aroma_warn : Bool
  fmap_bspline : Bool
  fmap_demean : Bool
  force_syn : Bool
  freesurfer : Bool
  hires : Bool
  ignore : List String
  layout : Layout
  longitudinal : Bool
  low_mem : Bool
  medial_surface_nan : Bool
  omp_nthreads : Nat
  output_dir : String
  output_spaces : Spaces
  regressors_all_comps : Bool
  regressors_dvars_th : Rat
  regressors_fd_th : Rat
  run_uuid : String
  skull_strip_fixed_seed : Bool
  skull_strip_template : String × Modifiers
  subject_list : List String
  t2s_coreg : Bool
  task_id : String
  use_aroma : Bool
  use_bbr : Option Bool
  use_syn : Bool
  work_dir : String

/-- The per-subject parameterization built inside the subject loop
(lines 225-260): every option is passed through, the name is
`"single_subject_" + subject_id + "_wf"`, and
`reportlets_dir = os.path.join(work_dir, 'reportlets')`. -/
def subjParamsOf (p : TopParams) (sid : String) : SubjParams :=
  { anat_only := p.anat_only,
    aroma_melodic_dim := p.aroma_melodic_dim,
    bold2t1w_dof := p.bold2t1w_dof,
    cifti_output := p.cifti_output,
    debug := p.debug,
    dummy_scans := p.dummy_scans,
    echo_idx := p.echo_idx,
    err_on_aroma_warn := p.err_on_aroma_warn,
    fmap_bspline := p.fmap_bspline,
    fmap_demean := p.fmap_demean,
    force_syn := p.force_syn,
    freesurfer := p.freesurfer,
    hires := p.hires,
    ignore := p.ignore,
    layout := p.layout,
    longitudinal := p.longitudinal,
    low_mem := p.low_mem,
    medial_surface_nan := p.medial_surface_nan,
    name := "single_subject_" ++ sid ++ "_wf",
    omp_nthreads := p.omp_nthreads,
    output_dir := p.output_dir,
    output_spaces := p.output_spaces,
    reportlets_dir := p.work_dir ++ "/reportlets",
    regressors_all_comps := p.regressors_all_comps,
    regressors_dvars_th := p.regressors_dvars_th,
    regressors_fd_th := p.regressors_fd_th,
    skull_strip_fixed_seed := p.skull_strip_fixed_seed,
    skull_strip_template := p.skull_strip_template,
    subject_id := sid,
    t2s_coreg := p.t2s_coreg,
    task_id := p.task_id,
    use_aroma := p.use_aroma,
    use_bbr := p.use_bbr,
    use_syn := p.use_syn }

/-- The crash-log directory override of lines 262-264:
`os.path.join(output_dir, "fmriprep", "sub-" + subject_id, 'log', run_uuid)`. -/
def crashdumpDirOf (p : TopParams) (sid : String) : String :=
  p.output_dir ++ "/fmriprep/sub-" ++ sid ++ "/log/" ++ p.run_uuid

/-- The subject loop of `init_fmriprep_wf` (lines 224-271): build each
per-subject sub-pipeline in order, propagating the first exception.
`collected` and `anatNodes` give, per subject id, the external
`collect_data` result and the external anatomical sub-pipeline's nodes. -/
def buildSubjects (p : TopParams) (collected : String → SubjectData)
    (anatNodes : String → List WNode) : List String → Except InitError (List SubjEntry)
  | [] => .ok []
  | sid :: rest => do
    let wf ← init_single_subject_wf (subjParamsOf p sid) (collected sid) (anatNodes sid)
    let entries ← buildSubjects p collected anatNodes rest
    .ok ({ wf := wf, crashdump_dir := crashdumpDirOf p sid } :: entries)

/-- `init_fmriprep_wf` (lines 37-273): create the shared
FreeSurfer-directory node when `freesurfer` is enabled, build one
per-subject sub-pipeline per subject, and, when `freesurfer` is enabled,
connect the shared node's `subjects_dir` output into each sub-pipeline's
`inputnode.subjects_dir`; otherwise add the sub-pipelines with no such
connection. -/
def init_fmriprep_wf (p : TopParams) (collected : String → SubjectData)
    (anatNodes : String → List WNode) : Except InitError FmriprepWf := do
  let fsdir : Option FsdirNode :=
    if p.freesurfer then
      some { name := "fsdir_run_" ++ pyReplaceDash p.run_uuid,
             derivatives := p.output_dir,
             spaces := fsdirSpaces p.output_spaces }
    else
      none
  let subs ← buildSubjects p collected anatNodes p.subject_list
  .ok { name := "fmriprep_wf",
        base_dir := p.work_dir,
        fsdir := fsdir,
        subjects := subs,
        conns :=
          if p.freesurfer then
            subs.map (fun e =>
              { src := "fsdir_run_" ++ pyReplaceDash p.run_uuid,
                srcPort := "subjects_dir",
                xform := .ident,
                dst := e.wf.name,
                dstPort := "inputnode.subjects_dir" })
          else
            [] }

/- ------------------------------------------------------------------
   Concrete evaluation fixtures (used by the witness theorems below)
   ------------------------------------------------------------------ -/

/-- A concrete BIDS layout. -/
def layoutW : Layout := { root := "/data/bids" }

/-- A concrete requested output-space mapping mixing standard and
non-standard keys, as in the source's doctest. -/
def spacesW : Spaces :=
  [("MNI152Lin", []), ("fsaverage", [("density", PyVal.pyStr "10k")]),
   ("T1w", []), ("fsnative", [])]

/-- A concrete collected subject dataset: one T1w image, two BOLD runs. -/
def cW : SubjectData :=
  { t1w := ["/data/bids/sub-01/anat/sub-01_T1w.nii.gz"],
    t2w := [],
    bold := ["/data/bids/sub-01/func/sub-01_task-rest_run-1_bold.nii.gz",
             "/data/bids/sub-01/func/sub-01_task-rest_run-2_bold.nii.gz"],
    roi := [],
    flair := [] }

/-- The same subject with no BOLD runs. -/
def cNoBold : SubjectData := { cW with bold := [] }

/-- The same subject with no T1w images. -/
def cNoT1w : SubjectData := { cW with t1w := [] }

/-- Concrete per-subject parameters with functional processing enabled. -/
def pW : SubjParams :=
  { anat_only := false,
    aroma_melodic_dim := -200,
    bold2t1w_dof := 9,
    cifti_output := false,
    debug := false,
    dummy_scans := none,
    echo_idx := none,
    err_on_aroma_warn := false,
    fmap_bspline := false,
    fmap_demean := true,
    force_syn := false,
    freesurfer := true,
    hires := true,
    ignore := [],
    layout := layoutW,
    longitudinal := false,
    low_mem := false,
    medial_surface_nan := false,
    name := "single_subject_01_wf",
    omp_nthreads := 1,
    output_dir := "/out",
    output_spaces := spacesW,
    reportlets_dir := "/work/reportlets",
    regressors_all_comps := false,
    regressors_dvars_th := 3 / 2,
    regressors_fd_th := 1 / 2,
    skull_strip_fixed_seed := false,
    skull_strip_template := ("OASIS30ANTs", []),
    subject_id := "01",
    t2s_coreg := false,
    task_id := "",
    use_aroma := false,
    use_bbr := some true,
    use_syn := false }

/-- The same parameters in anatomical-only mode. -/
def pAnatOnly : SubjParams := { pW with anat_only := true }

/-- The same parameters under the first documentation name. -/
def pSpecName : SubjParams := { pW with name := "single_subject_wf" }

/-- A concrete stand-in for the external anatomical sub-pipeline's node
set, with nested names and two derivatives sinks whose `out_path_base`
initially points at the anatomical package's namespace. -/
def aW : List WNode :=
  [{ name := "outputnode", outPathBase := none },
   { name := "anat_reports_wf.ds_t1_conform_report", outPathBase := some "smriprep" },
   { name := "anat_derivatives_wf.ds_t1_preproc", outPathBase := some "smriprep" },
   { name := "brain_extraction_wf.copy_xform", outPathBase := none }]

/-- The per-subject workflow built from `pW`/`cW`/`aW` with the
functional stage included. -/
def wW : SingleSubjectWf :=
  addFuncWfs pW (effectiveSubjectData pW.name cW)
    (buildSubjectWorkflow pW (effectiveSubjectData pW.name cW) aW)

/-- The per-subject workflow built from `pAnatOnly`/`cW`/`aW`
(anatomical-only mode). -/
def wAnat : SingleSubjectWf :=
  buildSubjectWorkflow pAnatOnly (effectiveSubjectData pAnatOnly.name cW) aW

/-- Concrete top-level parameters (one subject, FreeSurfer enabled). -/
def pT : TopParams :=
  { anat_only := false,
    aroma_melodic_dim := -200,
    bold2t1w_dof := 9,
    cifti_output := false,
    debug := false,
    dummy_scans := none,
    echo_idx := none,
    err_on_aroma_warn := false,
    fmap_bspline := false,
    fmap_demean := true,
    force_syn := false,
    freesurfer := true,
    hires := true,
    ignore := [],
    layout := layoutW,
    longitudinal := false,
    low_mem := false,
    medial_surface_nan := false,
    omp_nthreads := 1,
    output_dir := "/out",
    output_spaces := spacesW,
    regressors_all_comps := false,
    regressors_dvars_th := 3 / 2,
    regressors_fd_th := 1 / 2,
    run_uuid := "20240101-abcdef",
    skull_strip_fixed_seed := false,
    skull_strip_template := ("OASIS30ANTs", []),
    subject_list := ["01"],
    t2s_coreg := false,
    task_id := "",
    use_aroma := false,
    use_bbr := some true,
    use_syn := false,
    work_dir := "/work" }

/-- Per-subject collected data for the top-level fixture. -/
def collectW : String → SubjectData := fun _ => cW

/-- Per-subject anatomical node sets for the top-level fixture. -/
def anatW : String → List WNode := fun _ => aW

/-- A trivially empty top-level workflow (fallback for `wTop`). -/
def emptyFmriprepWf : FmriprepWf :=
  { name := "", base_dir := "", fsdir := none, subjects := [], conns := [] }

/-- The top-level workflow built from the fixtures. -/
def wTop : FmriprepWf :=
  match init_fmriprep_wf pT collectW anatW with
  | .ok w => w
  | .error _ => emptyFmriprepWf

/- ------------------------------------------------------------------
   General lemmas about the string helpers
   ------------------------------------------------------------------ -/

theorem pyStartsWith_append (pre s : String) : pyStartsWith (pre ++ s) pre = true := by
  unfold pyStartsWith
  rw [String.data_append, List.isPrefixOf_iff_prefix]
  exact List.prefix_append _ _

theorem append_ne_of_ne_empty (pre s : String) (h : pre.data ≠ []) : pre ++ s ≠ s := by
  intro he
  have hd : (pre ++ s).data = s.data := congrArg String.data he
  rw [String.data_append] at hd
  have hl := congrArg List.length hd
  rw [List.length_append] at hl
  have : pre.data.length = 0 := by omega
  exact h (List.length_eq_zero.mp this)

theorem strContains_mid (pre mid suf : String) : strContains mid (pre ++ mid ++ suf) := by
  refine ⟨pre.data, suf.data, ?_⟩
  rw [String.data_append, String.data_append]

theorem strContains_appendLeft (p s t : String) (h : strContains s t) :
    strContains s (p ++ t) := by
  obtain ⟨x, y, hxy⟩ := h
  refine ⟨p.data ++ x, y, ?_⟩
  rw [String.data_append, ← hxy]
  simp [List.append_assoc]

/- ------------------------------------------------------------------
   Claims C3 and C4: the two pure helpers
   ------------------------------------------------------------------ -/

/-- C3 counterexample: the first-or-scalar helper does have a failure
mode.  On the empty list, `inlist[0]` raises `IndexError`, so `_pop`
does not return normally (modelled as `none`), contradicting the claim
that it returns normally for every input including an empty list. -/
theorem claim_C3_counterexample : _pop (PyVal.pyList []) = none := rfl

/-- C3 (amended): `_pop` returns the first element when the value is a
nonempty list or tuple, raises `IndexError` (modelled as `none`) when
the value is an empty list or tuple, and returns the value unchanged
when it is neither a list nor a tuple; in particular
`first_or_scalar([5,6]) == 5`, `first_or_scalar((5,6)) == 5`, and
`first_or_scalar(5) == 5`. -/
theorem claim_C3_amended :
    (∀ x xs, _pop (PyVal.pyList (x :: xs)) = some x)
    ∧ (∀ x xs, _pop (PyVal.pyTuple (x :: xs)) = some x)
    ∧ _pop (PyVal.pyList []) = none
    ∧ _pop (PyVal.pyTuple []) = none
    ∧ (∀ v : PyVal, v.isListOrTuple = false → _pop v = some v)
    ∧ _pop (PyVal.pyList [PyVal.pyInt 5, PyVal.pyInt 6]) = some (PyVal.pyInt 5)
    ∧ _pop (PyVal.pyTuple [PyVal.pyInt 5, PyVal.pyInt 6]) = some (PyVal.pyInt 5)
    ∧ _pop (PyVal.pyInt 5) = some (PyVal.pyInt 5) := by
  refine ⟨fun x xs => rfl, fun x xs => rfl, rfl, rfl, ?_, rfl, rfl, rfl⟩
  intro v hv
  cases v <;> simp_all [ _pop, PyVal.isListOrTuple]

/-- C3 witness: the amended theorem applied at the scalar input `5`. -/
theorem claim_C3_amended_witness :
    (PyVal.pyInt 5).isListOrTuple = false ∧ _pop (PyVal.pyInt 5) = some (PyVal.pyInt 5) :=
  ⟨rfl, claim_C3_amended.2.2.2.2.1 (PyVal.pyInt 5) rfl⟩

/-- C4: the subject-id prefixer is a pure total function on strings and
is idempotent; it returns its argument unchanged exactly when the
argument already starts with `sub-`, and otherwise returns `"sub-"`
followed by the argument. -/
theorem claim_C4 (s : String) :
    _prefix ( _prefix s) = _prefix s
    ∧ ( _prefix s = s ↔ pyStartsWith s "sub-" = true)
    ∧ (pyStartsWith s "sub-" = false → _prefix s = "sub-" ++ s) := by
  by_cases h : pyStartsWith s "sub-" = true
  · refine ⟨?_, ⟨fun _ => h, fun _ => ?_⟩, fun hf => ?_⟩
    · simp [ _prefix, h]
    · simp [ _prefix, h]
    · rw [hf] at h
      exact absurd h (by simp)
  · have hf : pyStartsWith s "sub-" = false := by
      exact Bool.not_eq_true _ ▸ eq_false_of_ne_true h
    have hval : _prefix s = "sub-" ++ s := by
      simp [ _prefix, hf]
    refine ⟨?_, ⟨fun he => ?_, fun ht => absurd ht h⟩, fun _ => hval⟩
    · rw [hval]
      simp [ _prefix, pyStartsWith_append]
    · rw [hval] at he
      exact absurd he (append_ne_of_ne_empty _ _ (by decide))

/-- C4 witness: the theorem applied at the concrete inputs `"01"` and
`"sub-01"` from the spec, together with the spec's concrete identities. -/
theorem claim_C4_witness :
    _prefix ( _prefix "01") = _prefix "01"
    ∧ (pyStartsWith "01" "sub-" = false → _prefix "01" = "sub-" ++ "01")
    ∧ ( _prefix "sub-01" = "sub-01" ↔ pyStartsWith "sub-01" "sub-" = true)
    ∧ _prefix "01" = "sub-01"
    ∧ _prefix "sub-01" = "sub-01" :=
  ⟨(claim_C4 "01").1, (claim_C4 "01").2.2, (claim_C4 "sub-01").2.1, by decide, by decide⟩

/- ------------------------------------------------------------------
   Inversion of a successful per-subject construction
   ------------------------------------------------------------------ -/

theorem init_ok_inv (p : SubjParams) (c : SubjectData) (a : List WNode)
    (w : SingleSubjectWf) (h : init_single_subject_wf p c a = .ok w) :
    (effectiveSubjectData p.name c).t1w ≠ []
    ∧ (p.anat_only = false → (effectiveSubjectData p.name c).bold ≠ [])
    ∧ ((p.anat_only = true
          ∧ w = buildSubjectWorkflow p (effectiveSubjectData p.name c) a)
       ∨ (p.anat_only = false
          ∧ w = addFuncWfs p (effectiveSubjectData p.name c)
              (buildSubjectWorkflow p (effectiveSubjectData p.name c) a))) := by
  unfold init_single_subject_wf at h
  by_cases h1 : p.anat_only = false ∧ (effectiveSubjectData p.name c).bold = []
  · rw [if_pos h1] at h
    exact Except.noConfusion h
  · rw [if_neg h1] at h
    by_cases h2 : (effectiveSubjectData p.name c).t1w = []
    · rw [if_pos h2] at h
      exact Except.noConfusion h
    · rw [if_neg h2] at h
      by_cases h3 : p.anat_only = true
      · rw [if_pos h3] at h
        injection h with h4
        exact ⟨h2, fun hf => absurd h3 (by simp [hf]), Or.inl ⟨h3, h4.symm⟩⟩
      · rw [if_neg h3] at h
        injection h with h4
        have hfalse : p.anat_only = false := by
          cases hb : p.anat_only
          · rfl
          · exact absurd hb h3
        exact ⟨h2, fun _ hbold => h1 ⟨hfalse, hbold⟩, Or.inr ⟨hfalse, h4.symm⟩⟩

/- ------------------------------------------------------------------
   Claims C1, C2, C6, C10: validation and the documentation names
   ------------------------------------------------------------------ -/

/-- C1: with functional processing enabled (`anat_only = False`) and an
empty BOLD list in the subject's data, `init_single_subject_wf` raises
the data-availability error whose message names the subject and the task
(the task shown as `<all>` when no task filter was given); and this
error is never raised when `anat_only` is true or when at least one BOLD
file was found. -/
theorem claim_C1 (p : SubjParams) (c : SubjectData) (a : List WNode)
    (h1 : p.anat_only = false) (h2 : (effectiveSubjectData p.name c).bold = []) :
    init_single_subject_wf p c a = .error (.noBold p.subject_id p.task_id)
    ∧ strContains p.subject_id (InitError.message (.noBold p.subject_id p.task_id))
    ∧ (p.task_id = "" →
        strContains "<all>" (InitError.message (.noBold p.subject_id p.task_id)))
    ∧ (p.task_id ≠ "" →
        strContains p.task_id (InitError.message (.noBold p.subject_id p.task_id)))
    ∧ (∀ (q : SubjParams) (c' : SubjectData) (a' : List WNode),
        (q.anat_only = true ∨ (effectiveSubjectData q.name c').bold ≠ []) →
        ∀ sid tid, init_single_subject_wf q c' a' ≠ .error (.noBold sid tid)) := by
  refine ⟨?_, ?_, ?_, ?_, ?_⟩
  · unfold init_single_subject_wf
    rw [if_pos ⟨h1, h2⟩]
  · simp only [InitError.message]
    exact strContains_mid _ _ _
  · intro ht
    simp only [InitError.message]
    rw [if_pos ht]
    exact strContains_appendLeft _ _ _ (strContains_mid _ _ _)
  · intro ht
    simp only [InitError.message]
    rw [if_neg ht]
    exact strContains_appendLeft _ _ _ (strContains_mid _ _ _)
  · intro q c' a' hq sid tid hcontra
    unfold init_single_subject_wf at hcontra
    by_cases g1 : q.anat_only = false ∧ (effectiveSubjectData q.name c').bold = []
    · rcases hq with hq | hq
      · exact absurd g1.1 (by simp [hq])
      · exact hq g1.2
    · rw [if_neg g1] at hcontra
      by_cases g2 : (effectiveSubjectData q.name c').t1w = []
      · rw [if_pos g2] at hcontra
        simp at hcontra
      · rw [if_neg g2] at hcontra
        by_cases g3 : q.anat_only = true
        · rw [if_pos g3] at hcontra
          exact Except.noConfusion hcontra
        · rw [if_neg g3] at hcontra
          exact Except.noConfusion hcontra

/-- C1 witness: the theorem applied at a concrete subject whose collected
data has no BOLD runs. -/
theorem claim_C1_witness :
    pW.anat_only = false
    ∧ (effectiveSubjectData pW.name cNoBold).bold = []
    ∧ init_single_subject_wf pW cNoBold aW = .error (.noBold pW.subject_id pW.task_id)
    ∧ strContains pW.subject_id (InitError.message (.noBold pW.subject_id pW.task_id)) :=
  ⟨rfl, by decide, (claim_C1 pW cNoBold aW rfl (by decide)).1,
    (claim_C1 pW cNoBold aW rfl (by decide)).2.1⟩

/-- C2: whenever the subject's data has no T1w images, construction fails
with a data-availability error whose message names the subject,
regardless of every other flag; in particular no workflow is ever
returned. -/
theorem claim_C2 (p : SubjParams) (c : SubjectData) (a : List WNode)
    (h : (effectiveSubjectData p.name c).t1w = []) :
    ∃ e : InitError, init_single_subject_wf p c a = .error e
      ∧ strContains p.subject_id e.message := by
  by_cases hb : p.anat_only = false ∧ (effectiveSubjectData p.name c).bold = []
  · refine ⟨.noBold p.subject_id p.task_id, ?_, ?_⟩
    · unfold init_single_subject_wf
      rw [if_pos hb]
    · simp only [InitError.message]
      exact strContains_mid _ _ _
  · refine ⟨.noT1w p.subject_id, ?_, ?_⟩
    · unfold init_single_subject_wf
      rw [if_neg hb, if_pos h]
    · simp only [InitError.message]
      exact strContains_mid _ _ _

/-- C2 witness: the theorem applied at a concrete subject with no T1w
images (here with `anat_only = false` and BOLD runs present, so the T1w
check itself fires). -/
theorem claim_C2_witness :
    (effectiveSubjectData pW.name cNoT1w).t1w = []
    ∧ ∃ e : InitError, init_single_subject_wf pW cNoT1w aW = .error e
        ∧ strContains pW.subject_id e.message :=
  ⟨by decide, claim_C2 pW cNoT1w aW (by decide)⟩

/-- C6: for a subject with at least one T1w image, anatomical-only
construction succeeds (whatever the BOLD list, including empty) and the
returned workflow contains no functional sub-pipelines. -/
theorem claim_C6 (p : SubjParams) (c : SubjectData) (a : List WNode)
    (h1 : p.anat_only = true) (h2 : (effectiveSubjectData p.name c).t1w ≠ []) :
    init_single_subject_wf p c a
      = .ok (buildSubjectWorkflow p (effectiveSubjectData p.name c) a)
    ∧ (buildSubjectWorkflow p (effectiveSubjectData p.name c) a).funcWfs = [] := by
  constructor
  · unfold init_single_subject_wf
    rw [if_neg (by simp [h1]), if_neg h2, if_pos h1]
  · rfl

/-- C6 witness: the theorem applied at a concrete subject with one T1w
image and zero BOLD runs, in anatomical-only mode. -/
theorem claim_C6_witness :
    pAnatOnly.anat_only = true
    ∧ (effectiveSubjectData pAnatOnly.name cNoBold).t1w ≠ []
    ∧ init_single_subject_wf pAnatOnly cNoBold aW
        = .ok (buildSubjectWorkflow pAnatOnly (effectiveSubjectData pAnatOnly.name cNoBold) aW)
    ∧ (buildSubjectWorkflow pAnatOnly (effectiveSubjectData pAnatOnly.name cNoBold) aW).funcWfs
        = [] :=
  ⟨rfl, by decide, (claim_C6 pAnatOnly cNoBold aW rfl (by decide)).1,
    (claim_C6 pAnatOnly cNoBold aW rfl (by decide)).2⟩

/-- C10: under either documentation name, the builder ignores the
external `collect_data` result entirely, substitutes the fixed made-up
dataset with exactly one T1w file and one BOLD file, and therefore never
raises either data-availability error, regardless of the layout and the
other arguments. -/
theorem claim_C10 (p : SubjParams)
    (h : p.name = "single_subject_wf" ∨ p.name = "single_subject_fmripreptest_wf") :
    (∀ c, effectiveSubjectData p.name c = madeUpSubjectData)
    ∧ madeUpSubjectData.t1w.length = 1
    ∧ madeUpSubjectData.bold.length = 1
    ∧ (∀ c c' a, init_single_subject_wf p c a = init_single_subject_wf p c' a)
    ∧ (∀ c a, init_single_subject_wf p c a =
        .ok (if p.anat_only = true then
            buildSubjectWorkflow p madeUpSubjectData a
          else
            addFuncWfs p madeUpSubjectData (buildSubjectWorkflow p madeUpSubjectData a))) := by
  have heff : ∀ c, effectiveSubjectData p.name c = madeUpSubjectData := fun c => by
    unfold effectiveSubjectData
    rw [if_pos h]
  have hres : ∀ c a, init_single_subject_wf p c a =
      .ok (if p.anat_only = true then
          buildSubjectWorkflow p madeUpSubjectData a
        else
          addFuncWfs p madeUpSubjectData (buildSubjectWorkflow p madeUpSubjectData a)) := by
    intro c a
    unfold init_single_subject_wf
    rw [heff c]
    rw [if_neg (by simp [madeUpSubjectData]), if_neg (by simp [madeUpSubjectData])]
    by_cases ha : p.anat_only = true
    · rw [if_pos ha, if_pos ha]
    · rw [if_neg ha, if_neg ha]
  exact ⟨heff, rfl, rfl, fun c c' a => by rw [hres c a, hres c' a], hres⟩

/-- C10 witness: the theorem applied at the first documentation name,
with two different collected datasets (one of them missing all T1w
images) yielding the same result. -/
theorem claim_C10_witness :
    (pSpecName.name = "single_subject_wf" ∨ pSpecName.name = "single_subject_fmripreptest_wf")
    ∧ effectiveSubjectData pSpecName.name cNoT1w = madeUpSubjectData
    ∧ init_single_subject_wf pSpecName cNoT1w aW = init_single_subject_wf pSpecName cW aW :=
  ⟨Or.inl rfl, (claim_C10 pSpecName (Or.inl rfl)).1 cNoT1w,
    (claim_C10 pSpecName (Or.inl rfl)).2.2.2.1 cNoT1w cW aW⟩

/- ------------------------------------------------------------------
   Claims C5, C7, C9: structure of a successfully built workflow
   ------------------------------------------------------------------ -/

/-- C5: the output-space subset passed to the anatomical sub-pipeline
consists of exactly those entries of the requested mapping whose key is
not in the fixed non-standard label list, in the original relative
order. -/
theorem claim_C5 (p : SubjParams) (c : SubjectData) (a : List WNode)
    (w : SingleSubjectWf) (h : init_single_subject_wf p c a = .ok w) :
    w.anatParams.output_spaces = std_spaces p.output_spaces
    ∧ (∀ kv : String × Modifiers,
        kv ∈ w.anatParams.output_spaces ↔ kv ∈ p.output_spaces ∧ kv.1 ∉ NONSTANDARD_REFERENCES)
    ∧ w.anatParams.output_spaces.Sublist p.output_spaces := by
  have hw := (init_ok_inv p c a w h).2.2
  have hstd : w.anatParams.output_spaces = std_spaces p.output_spaces := by
    rcases hw with ⟨_, rfl⟩ | ⟨_, rfl⟩ <;> rfl
  refine ⟨hstd, fun kv => ?_, ?_⟩
  · rw [hstd]
    unfold std_spaces
    rw [List.mem_filter]
    simp [List.elem_iff]
  · rw [hstd]
    exact List.filter_sublist _

/-- C5 witness: the theorem applied at the concrete fixture; filtering
the spec's example mapping keeps exactly the `MNI152Lin` entry. -/
theorem claim_C5_witness :
    init_single_subject_wf pW cW aW = .ok wW
    ∧ wW.anatParams.output_spaces = std_spaces pW.output_spaces
    ∧ std_spaces [("MNI152Lin", ([] : Modifiers)), ("T1w", []), ("fsnative", [])]
        = [("MNI152Lin", [])]
    ∧ std_spaces pW.output_spaces
        = [("MNI152Lin", []), ("fsaverage", [("density", PyVal.pyStr "10k")])] :=
  ⟨rfl, (claim_C5 pW cW aW wW rfl).1, rfl, rfl⟩

/-- Helper for C7: reading back the BOLD file of each functional
sub-pipeline recovers the BOLD list. -/
theorem map_bold_file (p : SubjParams) (sd : SubjectData) (l : List String) :
    (l.map (fun bold_file => buildFuncWf p sd bold_file)).map (fun f => f.params.bold_file)
      = l := by
  induction l with
  | nil => rfl
  | cons x xs ih =>
      simp only [List.map_cons]
      rw [ih]
      rfl

/-- C7: with functional processing enabled, a successful construction
contains exactly one functional sub-pipeline per discovered BOLD file
(at least one), in order, each parameterized with `num_bold` equal to
the number of BOLD files and each receiving the same fixed anatomical
connection list, in which exactly the preprocessed-T1 output is routed
through the first-or-scalar transform. -/
theorem claim_C7 (p : SubjParams) (c : SubjectData) (a : List WNode)
    (w : SingleSubjectWf) (h1 : p.anat_only = false)
    (h : init_single_subject_wf p c a = .ok w) :
    1 ≤ (effectiveSubjectData p.name c).bold.length
    ∧ w.funcWfs.length = (effectiveSubjectData p.name c).bold.length
    ∧ w.funcWfs.map (fun f => f.params.bold_file) = (effectiveSubjectData p.name c).bold
    ∧ ∀ f ∈ w.funcWfs,
        f.params.num_bold = (effectiveSubjectData p.name c).bold.length
        ∧ f.conns = anatToFuncConns
        ∧ ({ srcPort := "outputnode.t1_preproc", xform := PortXform.popFirst,
             dstPort := "inputnode.t1_preproc" } : FuncConn) ∈ f.conns
        ∧ ∀ fc ∈ f.conns,
            (fc.xform = PortXform.popFirst ↔ fc.srcPort = "outputnode.t1_preproc") := by
  obtain ⟨ht1w, hbold, hw⟩ := init_ok_inv p c a w h
  rcases hw with ⟨ha, _⟩ | ⟨_, rfl⟩
  · exact absurd ha (by simp [h1])
  · have hbne := hbold h1
    refine ⟨?_, ?_, ?_, ?_⟩
    · cases hb : (effectiveSubjectData p.name c).bold with
      | nil => exact absurd hb hbne
      | cons x xs => simp [hb]
    · simp [addFuncWfs, buildSubjectWorkflow]
    · exact map_bold_file p _ _
    · intro f hf
      simp only [addFuncWfs, buildSubjectWorkflow, List.mem_map] at hf
      obtain ⟨bold_file, hbf, rfl⟩ := hf
      refine ⟨rfl, rfl, ?_, ?_⟩
      · exact (by decide : popConn ∈ anatToFuncConns)
      · intro fc hfc
        have hfc' : fc ∈ anatToFuncConns := hfc
        fin_cases hfc' <;> decide

/-- C7 witness: the theorem applied at the concrete fixture with two BOLD
runs; the workflow contains exactly two functional sub-pipelines. -/
theorem claim_C7_witness :
    pW.anat_only = false
    ∧ init_single_subject_wf pW cW aW = .ok wW
    ∧ wW.funcWfs.length = (effectiveSubjectData pW.name cW).bold.length
    ∧ wW.funcWfs.length = 2
    ∧ wW.funcWfs.map (fun f => f.params.bold_file) = (effectiveSubjectData pW.name cW).bold :=
  ⟨rfl, rfl, (claim_C7 pW cW aW wW rfl rfl).2.1, rfl,
    (claim_C7 pW cW aW wW rfl rfl).2.2.1⟩

/-- Helper for C9: the relabelling step on a derivatives-sink node. -/
theorem relabelDs_ds (n : WNode) (h : pyStartsWith (localName n.name) "ds_" = true) :
    relabelDs n = { n with outPathBase := some "fmriprep" } := by
  simp [relabelDs, h]

/-- Helper for C9: the relabelling step is the identity elsewhere. -/
theorem relabelDs_not_ds (n : WNode) (h : pyStartsWith (localName n.name) "ds_" = false) :
    relabelDs n = n := by
  simp [relabelDs, h]

/-- C9: after the relabelling pass, every node of the per-subject
workflow (including those inherited from the anatomical sub-pipeline)
whose local name starts with `ds_` has `out_path_base = 'fmriprep'`, and
every node whose local name does not start with `ds_` is left exactly as
it was before the pass (same position, unmodified). -/
theorem claim_C9 (p : SubjParams) (c : SubjectData) (a : List WNode)
    (w : SingleSubjectWf) (h : init_single_subject_wf p c a = .ok w) :
    w.nodes = (preRelabelNodes a).map relabelDs
    ∧ (∀ n ∈ w.nodes, pyStartsWith (localName n.name) "ds_" = true →
        n.outPathBase = some "fmriprep")
    ∧ (∀ (i : Nat) (n : WNode), (preRelabelNodes a)[i]? = some n →
        pyStartsWith (localName n.name) "ds_" = false → w.nodes[i]? = some n) := by
  obtain ⟨_, _, hw⟩ := init_ok_inv p c a w h
  have hnodes : w.nodes = (preRelabelNodes a).map relabelDs := by
    rcases hw with ⟨_, rfl⟩ | ⟨_, rfl⟩ <;> rfl
  refine ⟨hnodes, ?_, ?_⟩
  · intro n hn hds
    rw [hnodes] at hn
    obtain ⟨m, hm, rfl⟩ := List.mem_map.mp hn
    cases hc : pyStartsWith (localName m.name) "ds_" with
    | false =>
        rw [relabelDs_not_ds m hc] at hds
        simp [hc] at hds
    | true =>
        rw [relabelDs_ds m hc]
  · intro i n hpre hds
    rw [hnodes, List.getElem?_map, hpre]
    simp [relabelDs_not_ds n hds]

/-- C9 witness: the theorem applied at the concrete fixture; the
derivatives sink inherited from the anatomical sub-pipeline has been
relabelled to the `fmriprep` namespace, while a non-sink node is
untouched. -/
theorem claim_C9_witness :
    init_single_subject_wf pAnatOnly cW aW = .ok wAnat
    ∧ (∀ n ∈ wAnat.nodes, pyStartsWith (localName n.name) "ds_" = true →
        n.outPathBase = some "fmriprep")
    ∧ ({ name := "anat_preproc_wf.anat_reports_wf.ds_t1_conform_report",
         outPathBase := some "fmriprep" } : WNode) ∈ wAnat.nodes
    ∧ ({ name := "anat_preproc_wf.brain_extraction_wf.copy_xform",
         outPathBase := none } : WNode) ∈ wAnat.nodes :=
  ⟨rfl, (claim_C9 pAnatOnly cW aW wAnat rfl).2.1, by decide, by decide⟩

/- ------------------------------------------------------------------
   Claim C8: the top-level builder and the shared FreeSurfer node
   ------------------------------------------------------------------ -/

/-- C8: in a successfully built top-level workflow, if FreeSurfer is
enabled there is exactly one shared FreeSurfer-directory preparation
node, parameterized with the spaces list consisting of all requested
output-space keys starting with `fsaverage` followed by `fsnative`
exactly when `fsnative` is a requested key, and every per-subject
sub-pipeline's `inputnode.subjects_dir` is connected to that node's
`subjects_dir` output (and nothing else is connected at the top level);
if FreeSurfer is disabled there is no such node and no top-level
connection. -/
theorem claim_C8 (p : TopParams) (collected : String → SubjectData)
    (anatNodes : String → List WNode) (w : FmriprepWf)
    (h : init_fmriprep_wf p collected anatNodes = .ok w) :
    (p.freesurfer = true →
      w.fsdir = some { name := "fsdir_run_" ++ pyReplaceDash p.run_uuid,
                       derivatives := p.output_dir,
                       spaces := (p.output_spaces.map Prod.fst).filter
                           (fun s => pyStartsWith s "fsaverage") ++
                         (if (p.output_spaces.map Prod.fst).contains "fsnative" then
                           ["fsnative"] else []) }
      ∧ w.conns = w.subjects.map (fun e =>
          { src := "fsdir_run_" ++ pyReplaceDash p.run_uuid, srcPort := "subjects_dir",
            xform := .ident, dst := e.wf.name, dstPort := "inputnode.subjects_dir" })
      ∧ ∀ f : FsdirNode, w.fsdir = some f →
          ("fsnative" ∈ f.spaces ↔ "fsnative" ∈ p.output_spaces.map Prod.fst))
    ∧ (p.freesurfer = false → w.fsdir = none ∧ w.conns = []) := by
  cases hb : buildSubjects p collected anatNodes p.subject_list with
  | error e =>
      unfold init_fmriprep_wf at h
      rw [hb] at h
      exact Except.noConfusion h
  | ok subs =>
      unfold init_fmriprep_wf at h
      rw [hb] at h
      simp only [bind, Except.bind] at h
      injection h with h4
      subst h4
      constructor
      · intro hfs
        refine ⟨?_, ?_, ?_⟩
        · simp [hfs, fsdirSpaces]
        · simp [hfs]
        · intro f hf
          simp only [hfs, if_pos] at hf
          injection hf with hf4
          subst hf4
          simp only [fsdirSpaces]
          constructor
          · intro hm
            rcases List.mem_append.mp hm with hm | hm
            · have := (List.mem_filter.mp hm).2
              exact absurd this (by decide)
            · by_cases hc : (p.output_spaces.map Prod.fst).contains "fsnative" = true
              · exact List.mem_of_elem_eq_true hc
              · rw [if_neg hc] at hm
                exact absurd hm (by simp)
          · intro hm
            refine List.mem_append.mpr (Or.inr ?_)
            rw [if_pos (List.elem_eq_true_of_mem hm)]
            exact List.mem_singleton.mpr rfl
      · intro hfs
        constructor
        · simp [hfs]
        · simp [hfs]

/-- C8 witness: the theorem applied at the concrete one-subject fixture
with FreeSurfer enabled; the shared node exists with the expected spaces
list and there is exactly one top-level connection, into the subject's
`inputnode.subjects_dir`. -/
theorem claim_C8_witness :
    pT.freesurfer = true
    ∧ init_fmriprep_wf pT collectW anatW = .ok wTop
    ∧ wTop.fsdir = some { name := "fsdir_run_20240101_abcdef", derivatives := "/out",
                          spaces := ["fsaverage", "fsnative"] }
    ∧ wTop.conns = [{ src := "fsdir_run_20240101_abcdef", srcPort := "subjects_dir",
                      xform := .ident, dst := "single_subject_01_wf",
                      dstPort := "inputnode.subjects_dir" }] := by
  have h : init_fmriprep_wf pT collectW anatW = .ok wTop := rfl
  have hc := (claim_C8 pT collectW anatW wTop h).1 rfl
  exact ⟨rfl, h, hc.1, by decide⟩

end FMRIPrep
